import Mathlib

/-!
Shallow embedding of the `MCPService` frontend service class
(`frontend` service for communicating with the MCP agent via the FastAPI
backend): chat messages, property actions, conversation-id session
lifecycle and error handling.

Modelling conventions:
* `sessionStorage` (single key `mcp_conversation_id`) and the
  `typeof window` guard are modelled by `SessionState`.
* Network nondeterminism (the behaviour of the transport for one `fetch`) is an
  explicit `TransportBehavior` input; the 30-second `AbortController`
  timeout of the chat path is applied by `fetchWithTimeout`.
* `Date.now()` and `Math.random()` are oracle inputs: the current time is
  a `Nat`, the random number is given by the base-36 digit string of its
  fractional expansion (what `Math.random().toString(36)` prints after
  the leading "0.").
* JS numbers appearing in the canned demo data are exact decimal
  literals, modelled as rationals.
-/

/-- Character-list version of JS `String.prototype.startsWith`:
`listStartsWith pat s` is true when `pat` is an initial segment of `s`. -/
def listStartsWith : List Char → List Char → Bool
  | [], _ => true
  | _ :: _, [] => false
  | p :: ps, c :: cs => p == c && listStartsWith ps cs

/-- Character-list version of substring containment:
`listContainsSeq s pat` is true when `pat` occurs contiguously in `s`. -/
def listContainsSeq : List Char → List Char → Bool
  | [], pat => pat.isEmpty
  | c :: tl, pat => listStartsWith pat (c :: tl) || listContainsSeq tl pat

/-- Model of JS `s.includes(pat)` (substring containment). -/
def strContains (s pat : String) : Bool :=
  listContainsSeq s.toList pat.toList

/-- Model of JS `s.toLowerCase()` (character-wise ASCII case mapping; the
keyword inspection only involves ASCII keywords). -/
def strToLower (s : String) : String :=
  String.mk (s.toList.map Char.toLower)

/-- `location: { lat, lng }` of a property (exact decimal literals as ℚ). -/
structure GeoPoint where
  lat : ℚ
  lng : ℚ
deriving DecidableEq

/-- `landlord: { name, email, phone }` of a property. -/
structure Landlord where
  name : String
  email : String
  phone : String
deriving DecidableEq

/-- The `PropertyInfo` interface. -/
structure PropertyInfo where
  id : String
  address : String
  rent : ℚ
  bedrooms : Nat
  bathrooms : ℚ
  description : Option String := none
  amenities : Option (List String) := none
  location : Option GeoPoint := none
  images : Option (List String) := none
  landlord : Option Landlord := none
deriving DecidableEq

/-- The `MCPResponse` interface (the ChatResult of the spec). -/
structure MCPResponse where
  success : Bool
  message : String
  properties : Option (List PropertyInfo) := none
  error : Option String := none
deriving DecidableEq

/-- The `ActionResponse` interface (the ActionResult of the spec). -/
structure ActionResponse where
  success : Bool
  message : String
deriving DecidableEq

/-- First canned demo property (`demo_1`, the 2-bedroom). -/
def demoProperty1 : PropertyInfo :=
  { id := "demo_1"
    address := "123 Oak Street, Downtown"
    rent := 1800
    bedrooms := 2
    bathrooms := 3 / 2
    description := some "Beautiful 2-bedroom apartment with modern amenities and city views"
    amenities := some ["Parking", "Laundry", "Pet-friendly", "Gym"]
    location := some { lat := 407589 / 10000, lng := -(739851 / 10000) }
    landlord := some { name := "John Smith", email := "john@oakproperties.com", phone := "555-0123" } }

/-- Second canned demo property (`demo_2`, the 3-bedroom). -/
def demoProperty2 : PropertyInfo :=
  { id := "demo_2"
    address := "456 Pine Avenue, Midtown"
    rent := 2200
    bedrooms := 3
    bathrooms := 2
    description := some "Spacious 3-bedroom with great natural light and modern kitchen"
    amenities := some ["Gym", "Pool", "Parking", "Concierge"]
    location := some { lat := 407505 / 10000, lng := -(739934 / 10000) }
    landlord := some { name := "Jane Doe", email := "jane@pineresidences.com", phone := "555-0456" } }

/-- The `demoProperties` array of `getDemoResponse`. -/
def demoProperties : List PropertyInfo := [demoProperty1, demoProperty2]

/-- Canned message of the budget/price branch of `getDemoResponse`. -/
def budgetMessageText : String :=
  "I found some properties within your budget range. Here are my top recommendations based on value and location:"

/-- Canned message of the bedroom branch of `getDemoResponse`. -/
def bedroomMessageText : String :=
  "Based on your bedroom requirements, here\x27s a great option that matches your needs:"

/-- Canned message of the default branch of `getDemoResponse`. -/
def welcomeMessageText : String :=
  "I\x27d be happy to help you find the perfect rental! Here are some popular properties that might interest you:"

/-- `MCPService.getDemoResponse`: deterministic offline fallback chosen by
case-insensitive keyword inspection of the message. -/
def getDemoResponse (message : String) : MCPResponse :=
  let messageLower := strToLower message
  if strContains messageLower "budget" || strContains messageLower "price" ||
      strContains messageLower "$" then
    { success := true
      message := budgetMessageText
      properties := some demoProperties }
  else if strContains messageLower "bedroom" || strContains messageLower "bed" then
    { success := true
      message := bedroomMessageText
      properties := some [demoProperty2] }
  else
    { success := true
      message := welcomeMessageText
      properties := some [demoProperty1] }

/-- Browser session context: whether `window` (and hence `sessionStorage`)
exists, and the current value of the `mcp_conversation_id` storage slot. -/
structure SessionState where
  hasWindow : Bool
  storage : Option String
deriving DecidableEq

/-- Model of `Math.random().toString(36)`: `digits` is the base-36 digit
string of the fractional expansion of the random number; a zero value
prints as `"0"`, anything else as `"0."` followed by the digits. -/
def randToString36 (digits : String) : String :=
  if digits.toList = [] then "0" else "0." ++ digits

/-- Model of JS `.substr(2, 9)` (nine characters starting at index 2). -/
def substrTwoNine (s : String) : String :=
  String.mk ((s.toList.drop 2).take 9)

/-- `MCPService.generateConversationId`:
`conv_<Date.now()>_<Math.random().toString(36).substr(2, 9)>`. -/
def generateConversationId (now : Nat) (digits : String) : String :=
  "conv_" ++ toString now ++ "_" ++ substrTwoNine (randToString36 digits)

/-- `c` is one of the 36 lowercase base-36 digit characters. -/
def isBase36Digit (c : Char) : Bool :=
  ('0' ≤ c && c ≤ '9') || ('a' ≤ c && c ≤ 'z')

/-- Numeric value of a base-36 digit character. -/
def digitVal36 (c : Char) : Nat :=
  if c ≤ '9' then c.toNat - '0'.toNat else c.toNat - 'a'.toNat + 10

/-- Value of a base-36 digit string read as an integer. -/
def frac36Val (digits : List Char) : Nat :=
  digits.foldl (fun acc c => 36 * acc + digitVal36 c) 0

/-- `digits` is a possible fractional base-36 expansion printed by
`Math.random().toString(36)`: all characters are base-36 digits, there is
no trailing zero digit, and the represented value `frac36Val / 36 ^ length`
is a dyadic rational with denominator `2 ^ 53` (the granularity of
`Math.random`). -/
def validRandDigits (digits : String) : Bool :=
  digits.toList.all isBase36Digit &&
  !(digits.toList.getLast? == some '0') &&
  (frac36Val digits.toList * 2 ^ 53) % (36 ^ digits.toList.length) == 0

/-- `MCPService.getConversationId`: return the stored id when `window`
and a stored id exist; otherwise produce a fresh id, persisting it only
when `window` exists. Returns the id and the updated session state. -/
def getConversationId (st : SessionState) (now : Nat) (digits : String) :
    String × SessionState :=
  if st.hasWindow = false then (generateConversationId now digits, st)
  else
    match st.storage with
    | some stored => (stored, st)
    | none =>
      let newId := generateConversationId now digits
      (newId, { st with storage := some newId })

/-- `MCPService.resetConversation`: remove the persisted id when `window`
exists. -/
def resetConversation (st : SessionState) : SessionState :=
  if st.hasWindow then { st with storage := none } else st

/-- `conversationId || this.getConversationId()`: a supplied id is used
only when it is truthy (a non-empty string). -/
def resolveConversationId (conversationId : Option String) (st : SessionState)
    (now : Nat) (digits : String) : String × SessionState :=
  match conversationId with
  | some c => if c.toList = [] then getConversationId st now digits else (c, st)
  | none => getConversationId st now digits

/-- Behaviour of the transport for one `fetch` call, with the response
body already JSON-decoded (`Except.error` is an undecodable body carrying
the decode-error text). -/
inductive TransportBehavior (α : Type) where
  | respond (delayMs : Nat) (status : Nat) (body : Except String α)
  | netFail (delayMs : Nat) (errMsg : String)
  | hang

/-- Outcome of one `fetch` guarded by an `AbortController` timeout. -/
inductive FetchOutcome (α : Type) where
  | delivered (status : Nat) (body : Except String α)
  | netErr (errMsg : String)
  | aborted

/-- A `fetch` with a `setTimeout`-driven abort after `timeoutMs`: any
transport event at or after the deadline is pre-empted by the abort. -/
def fetchWithTimeout {α : Type} (t : TransportBehavior α) (timeoutMs : Nat) :
    FetchOutcome α :=
  match t with
  | .hang => .aborted
  | .respond d status body =>
      if timeoutMs ≤ d then .aborted else .delivered status body
  | .netFail d m => if timeoutMs ≤ d then .aborted else .netErr m

/-- The chat timeout (`MCPService.timeout`, 30 seconds). -/
def chatTimeoutMs : Nat := 30000

/-- JS `Response.ok`: status in the range 200–299. -/
def responseOk (status : Nat) : Bool :=
  200 ≤ status && status < 300

/-- Environment of one `sendMessage` call: connectivity flag read in the
catch handler, transport behaviour, the message of the `AbortError`
raised on timeout, and the time/randomness oracles for id generation. -/
structure ChatEnv where
  navigatorOnLine : Bool
  transport : TransportBehavior MCPResponse
  abortMsg : String
  now : Nat
  randDigits : String

/-- Result of the `try` block of `sendMessage` up to the `json()` parse:
`Except.error` carries the message of the exception that reaches the
`catch` handler (abort, network failure, thrown HTTP-status error, or
body-decode failure). -/
def chatAttempt (env : ChatEnv) : Except String MCPResponse :=
  match fetchWithTimeout env.transport chatTimeoutMs with
  | .aborted => .error env.abortMsg
  | .netErr m => .error m
  | .delivered status body =>
      if responseOk status then
        match body with
        | .ok data => .ok data
        | .error parseMsg => .error parseMsg
      else .error ("HTTP error! status: " ++ toString status)

/-- The generic retry prompt returned on an online failure. -/
def retryPromptText : String :=
  "I\x27m having trouble connecting to my knowledge base right now. Please try again in a moment."

/-- `MCPService.sendMessage`: resolve the conversation id, attempt the
chat request, persist the id on success, and on failure either serve the
demo fallback (offline) or a `success := false` result (online). -/
def sendMessage (message : String) (conversationId : Option String)
    (st : SessionState) (env : ChatEnv) : MCPResponse × SessionState :=
  let res := resolveConversationId conversationId st env.now env.randDigits
  let activeConversationId := res.1
  let st1 := res.2
  match chatAttempt env with
  | .ok data =>
      (data,
       if st1.hasWindow then { st1 with storage := some activeConversationId } else st1)
  | .error errDetail =>
      if !env.navigatorOnLine then (getDemoResponse message, st1)
      else
        ({ success := false
           message := retryPromptText
           error := some errDetail }, st1)

/-- `chatAttempt` ends in the `catch` handler. -/
def chatFails (env : ChatEnv) : Bool :=
  match chatAttempt env with
  | .ok _ => false
  | .error _ => true

/-- Outcome of an un-timed `fetch` (the action and history paths have no
`AbortController`): the transport either completes with a status and a
JSON-decoded body, or the `fetch` promise rejects. -/
inductive PlainFetchOutcome (α : Type) where
  | delivered (status : Nat) (body : Except String α)
  | netErr (errMsg : String)

/-- Shared shape of the three action handlers: parsed body on a 2xx
response, otherwise the fixed failure message of the handler. -/
def actionFromOutcome (out : PlainFetchOutcome ActionResponse)
    (failText : String) : ActionResponse :=
  match out with
  | .netErr _ => { success := false, message := failText }
  | .delivered status body =>
      if responseOk status then
        match body with
        | .ok data => data
        | .error _ => { success := false, message := failText }
      else { success := false, message := failText }

/-- `MCPService.favoriteProperty`. Touches no session state: the returned
state is the input state unchanged. -/
def favoriteProperty (propertyId : String)
    (out : PlainFetchOutcome ActionResponse) (st : SessionState) :
    ActionResponse × SessionState :=
  (actionFromOutcome out "Failed to favorite property. Please try again.", st)

/-- `MCPService.scheduleTour`. Touches no session state. -/
def scheduleTour (propertyId : String) (propertyAddress : Option String)
    (preferredDate : Option String) (out : PlainFetchOutcome ActionResponse)
    (st : SessionState) : ActionResponse × SessionState :=
  (actionFromOutcome out "Failed to schedule tour. Please try again.", st)

/-- `MCPService.setupOutreach`. Touches no session state. -/
def setupOutreach (propertyId : String) (propertyAddress : Option String)
    (customMessage : Option String) (out : PlainFetchOutcome ActionResponse)
    (st : SessionState) : ActionResponse × SessionState :=
  (actionFromOutcome out "Failed to setup outreach. Please try again.", st)

/-- The three action kinds of the `dispatchAction` operation of the spec. -/
inductive ActionKind where
  | favorite
  | tour
  | outreach
deriving DecidableEq

/-- Name of an action kind as it appears in user-facing text. -/
def actionKindName : ActionKind → String
  | .favorite => "favorite"
  | .tour => "tour"
  | .outreach => "outreach"

/-- The fixed failure message of each action handler. -/
def actionFailText : ActionKind → String
  | .favorite => "Failed to favorite property. Please try again."
  | .tour => "Failed to schedule tour. Please try again."
  | .outreach => "Failed to setup outreach. Please try again."

/-- The `dispatchAction(kind, propertyId)` operation of the spec: route to the matching
handler (extra per-kind arguments left at their defaults). -/
def dispatchAction (kind : ActionKind) (propertyId : String)
    (out : PlainFetchOutcome ActionResponse) (st : SessionState) :
    ActionResponse × SessionState :=
  match kind with
  | .favorite => favoriteProperty propertyId out st
  | .tour => scheduleTour propertyId none none out st
  | .outreach => setupOutreach propertyId none none out st

/-- The dispatch reached the `catch` handler or a non-2xx status (the
failure cases of the claims; a 2xx response with an undecodable body also
fails but is listed separately in the error taxonomy). -/
def plainFetchFails {α : Type} : PlainFetchOutcome α → Bool
  | .netErr _ => true
  | .delivered status body =>
      if responseOk status then
        match body with
        | .ok _ => false
        | .error _ => true
      else true

/-- Two independent action dispatches (e.g. issued in quick succession):
each runs against its own transport outcome, threading session state. -/
def runTwoActions (k1 : ActionKind) (p1 : String)
    (o1 : PlainFetchOutcome ActionResponse) (k2 : ActionKind) (p2 : String)
    (o2 : PlainFetchOutcome ActionResponse) (st : SessionState) :
    (ActionResponse × ActionResponse) × SessionState :=
  let r1 := dispatchAction k1 p1 o1 st
  let r2 := dispatchAction k2 p2 o2 r1.2
  ((r1.1, r2.1), r2.2)

/-- `MCPService.getConversationHistory`: resolve the conversation id the
same way `sendMessage` does, then read the history; any failure collapses
to the empty sequence. `τ` is the (opaque) type of one historical turn. -/
def getConversationHistory {τ : Type} (conversationId : Option String)
    (st : SessionState) (now : Nat) (digits : String)
    (out : PlainFetchOutcome (List τ)) : List τ × SessionState :=
  let res := resolveConversationId conversationId st now digits
  let st1 := res.2
  match out with
  | .netErr _ => ([], st1)
  | .delivered status body =>
      if responseOk status then
        match body with
        | .ok turns => (turns, st1)
        | .error _ => ([], st1)
      else ([], st1)

/-- Message of the `AbortError` a browser raises on `controller.abort()`. -/
def abortErrorText : String := "The user aborted a request."

/-- Fixture: offline client whose `fetch` rejects immediately. -/
def offlineNetFailEnv : ChatEnv :=
  { navigatorOnLine := false
    transport := .netFail 0 "Failed to fetch"
    abortMsg := abortErrorText
    now := 3
    randDigits := "k5j2h" }

/-- Fixture: online client receiving an HTTP 500 response. -/
def onlineHttp500Env : ChatEnv :=
  { navigatorOnLine := true
    transport := .respond 10 500 (.error "Unexpected end of JSON input")
    abortMsg := abortErrorText
    now := 4
    randDigits := "z8q1w" }

/-- Fixture: offline client whose `fetch` never settles. -/
def offlineHangEnv : ChatEnv :=
  { navigatorOnLine := false
    transport := .hang
    abortMsg := abortErrorText
    now := 0
    randDigits := "p0o9i" }

/-- Fixture: online client whose `fetch` never settles. -/
def onlineHangEnv : ChatEnv :=
  { navigatorOnLine := true
    transport := .hang
    abortMsg := abortErrorText
    now := 1
    randDigits := "l8k7j" }

/-- Fixture: online client receiving a parsed 200 response. -/
def okChatEnv : ChatEnv :=
  { navigatorOnLine := true
    transport := .respond 5 200 (.ok { success := true, message := "ok" })
    abortMsg := abortErrorText
    now := 9
    randDigits := "q2w3e" }

/-- The transport does not produce any event before the chat deadline. -/
def transportExceedsBound {α : Type} : TransportBehavior α → Bool
  | .hang => true
  | .respond d _ _ => chatTimeoutMs ≤ d
  | .netFail d _ => chatTimeoutMs ≤ d

theorem getConversationId_hasWindow (st : SessionState) (now : Nat) (d : String) :
    ((getConversationId st now d).2).hasWindow = st.hasWindow := by
  unfold getConversationId
  split
  · rfl
  · cases hst : st.storage <;> simp [hst]

theorem getConversationId_storage (st : SessionState) (now : Nat) (d : String)
    (hw : st.hasWindow = true) :
    ((getConversationId st now d).2).storage = some ((getConversationId st now d).1) := by
  unfold getConversationId
  simp only [hw]
  cases hst : st.storage <;> simp [hst]

theorem resolveConversationId_hasWindow (cid : Option String) (st : SessionState)
    (now : Nat) (d : String) :
    ((resolveConversationId cid st now d).2).hasWindow = st.hasWindow := by
  cases cid with
  | none => exact getConversationId_hasWindow st now d
  | some c =>
      by_cases hc : c.data = []
      · simp [resolveConversationId, String.toList, hc, getConversationId_hasWindow]
      · simp [resolveConversationId, String.toList, hc]

theorem getDemoResponse_success (message : String) :
    (getDemoResponse message).success = true := by
  simp only [getDemoResponse]
  split
  · rfl
  · split <;> rfl

/-- C1: for every message, when the chat request fails and the client is
detected offline, `sendMessage` returns the deterministic fallback chosen
by case-insensitive substring inspection of the message: budget/price/$
gives success with exactly the two canned properties; else bedroom/bed
gives success with exactly the 3-bedroom canned item; else success with
exactly the first canned item. -/
theorem C1_offline_fallback_cases (message : String) (cid : Option String)
    (st : SessionState) (env : ChatEnv)
    (hfail : chatFails env = true) (hoff : env.navigatorOnLine = false) :
    ((strContains (strToLower message) "budget" = true ∨
        strContains (strToLower message) "price" = true ∨
        strContains (strToLower message) "$" = true) →
      (sendMessage message cid st env).1 =
        { success := true, message := budgetMessageText,
          properties := some demoProperties }) ∧
    ((strContains (strToLower message) "budget" = false ∧
        strContains (strToLower message) "price" = false ∧
        strContains (strToLower message) "$" = false) →
      (strContains (strToLower message) "bedroom" = true ∨
        strContains (strToLower message) "bed" = true) →
      (sendMessage message cid st env).1 =
        { success := true, message := bedroomMessageText,
          properties := some [demoProperty2] }) ∧
    ((strContains (strToLower message) "budget" = false ∧
        strContains (strToLower message) "price" = false ∧
        strContains (strToLower message) "$" = false) →
      (strContains (strToLower message) "bedroom" = false ∧
        strContains (strToLower message) "bed" = false) →
      (sendMessage message cid st env).1 =
        { success := true, message := welcomeMessageText,
          properties := some [demoProperty1] }) := by
  have hmain : (sendMessage message cid st env).1 = getDemoResponse message := by
    unfold sendMessage
    cases h : chatAttempt env with
    | ok data => simp [chatFails, h] at hfail
    | error e => simp [h, hoff]
  rw [hmain]
  refine ⟨?_, ?_, ?_⟩
  · rintro (h1 | h1 | h1) <;> simp [getDemoResponse, h1]
  · rintro ⟨h1, h2, h3⟩ (h4 | h4) <;> simp [getDemoResponse, h1, h2, h3, h4]
  · rintro ⟨h1, h2, h3⟩ ⟨h4, h5⟩
    simp [getDemoResponse, h1, h2, h3, h4, h5]

theorem C1_offline_fallback_cases_witness :
    chatFails offlineNetFailEnv = true ∧
    offlineNetFailEnv.navigatorOnLine = false ∧
    (sendMessage "What\x27s my budget?" none ⟨true, none⟩ offlineNetFailEnv).1 =
      { success := true, message := budgetMessageText,
        properties := some demoProperties } :=
  ⟨rfl, rfl,
    (C1_offline_fallback_cases "What\x27s my budget?" none ⟨true, none⟩
        offlineNetFailEnv rfl rfl).1 (Or.inl (by decide))⟩

/-- C2: when the client is online and the chat request fails for any
reason, `sendMessage` returns `success := false` with the generic retry
prompt and the failure detail in `error`; the offline fallback is not
served. -/
theorem C2_online_failure (message : String) (cid : Option String)
    (st : SessionState) (env : ChatEnv) (e : String)
    (hfail : chatAttempt env = .error e) (hon : env.navigatorOnLine = true) :
    (sendMessage message cid st env).1 =
      { success := false, message := retryPromptText, error := some e } ∧
    (sendMessage message cid st env).1 ≠ getDemoResponse message := by
  have hmain : (sendMessage message cid st env).1 =
      { success := false, message := retryPromptText, error := some e } := by
    unfold sendMessage
    simp [hfail, hon]
  refine ⟨hmain, ?_⟩
  intro hcontra
  have hs := congrArg MCPResponse.success hcontra
  rw [hmain] at hs
  simp [getDemoResponse_success] at hs

theorem C2_online_failure_witness :
    chatAttempt onlineHttp500Env = .error "HTTP error! status: 500" ∧
    onlineHttp500Env.navigatorOnLine = true ∧
    (sendMessage "hello" none ⟨true, none⟩ onlineHttp500Env).1 =
      { success := false, message := retryPromptText,
        error := some "HTTP error! status: 500" } :=
  ⟨rfl, rfl,
    (C2_online_failure "hello" none ⟨true, none⟩ onlineHttp500Env
        "HTTP error! status: 500" rfl rfl).1⟩

/-- C3 (counterexample): a fallback-served call with an explicitly
supplied conversation id does not re-persist the resolved id: against an
offline failing transport, the resolved id is the supplied one but the
stored id is left at its previous value. -/
theorem C3_counterexample :
    (sendMessage "hello" (some "conv_new") ⟨true, some "conv_old"⟩
        offlineNetFailEnv).1 = getDemoResponse "hello" ∧
    (resolveConversationId (some "conv_new") ⟨true, some "conv_old"⟩
        offlineNetFailEnv.now offlineNetFailEnv.randDigits).1 = "conv_new" ∧
    ¬ (sendMessage "hello" (some "conv_new") ⟨true, some "conv_old"⟩
          offlineNetFailEnv).2.storage = some "conv_new" :=
  ⟨rfl, rfl, by decide⟩

/-- C3 (amended): every successful call persists the resolved
conversation id; a fallback-served call performs no write of its own, yet
when the id argument was omitted the resolved id is already in storage
(placed there by the id resolution), so calls stay correlated. -/
theorem C3_amended_persistence (message : String) (cid : Option String)
    (st : SessionState) (env : ChatEnv) (hw : st.hasWindow = true) :
    (∀ data, chatAttempt env = .ok data →
      (sendMessage message cid st env).2.storage =
        some (resolveConversationId cid st env.now env.randDigits).1) ∧
    (chatFails env = true → cid = none →
      (sendMessage message cid st env).2.storage =
        some (resolveConversationId cid st env.now env.randDigits).1) ∧
    (chatFails env = true →
      (sendMessage message cid st env).2.storage =
        (resolveConversationId cid st env.now env.randDigits).2.storage) := by
  have hw1 : (resolveConversationId cid st env.now env.randDigits).2.hasWindow = true := by
    rw [resolveConversationId_hasWindow]; exact hw
  refine ⟨?_, ?_, ?_⟩
  · intro data hok
    unfold sendMessage
    simp [hok, hw1]
  · intro hfail hcid
    subst hcid
    unfold sendMessage
    cases h : chatAttempt env with
    | ok data => simp [chatFails, h] at hfail
    | error e =>
        cases henv : env.navigatorOnLine <;>
          simp [h, henv, resolveConversationId, getConversationId_storage _ _ _ hw]
  · intro hfail
    unfold sendMessage
    cases h : chatAttempt env with
    | ok data => simp [chatFails, h] at hfail
    | error e => cases henv : env.navigatorOnLine <;> simp [h, henv]

theorem C3_amended_persistence_witness :
    (⟨true, some "prev"⟩ : SessionState).hasWindow = true ∧
    chatAttempt okChatEnv = .ok { success := true, message := "ok" } ∧
    (sendMessage "hi" none ⟨true, some "prev"⟩ okChatEnv).2.storage =
      some (resolveConversationId none ⟨true, some "prev"⟩
        okChatEnv.now okChatEnv.randDigits).1 :=
  ⟨rfl, rfl,
    (C3_amended_persistence "hi" none ⟨true, some "prev"⟩ okChatEnv rfl).1
      { success := true, message := "ok" } rfl⟩

/-- C4: with a storage medium present, two successive `getId()` calls with
no intervening `reset()` return the same conversation id. -/
theorem C4_getId_idempotent (st : SessionState) (now1 now2 : Nat)
    (d1 d2 : String) (hw : st.hasWindow = true) :
    (getConversationId (getConversationId st now1 d1).2 now2 d2).1 =
      (getConversationId st now1 d1).1 := by
  cases hst : st.storage <;>
    simp [getConversationId, hw, hst]

theorem C4_getId_idempotent_witness :
    (⟨true, none⟩ : SessionState).hasWindow = true ∧
    (getConversationId (getConversationId ⟨true, none⟩ 1 "aaaaa").2 2 "bbbbb").1 =
      (getConversationId ⟨true, none⟩ 1 "aaaaa").1 ∧
    (getConversationId ⟨true, none⟩ 1 "aaaaa").1 = "conv_1_aaaaa" :=
  ⟨rfl, C4_getId_idempotent ⟨true, none⟩ 1 2 "aaaaa" "bbbbb" rfl, by decide⟩

/-- C5: after `reset()` removes the persisted id, the next `getId()`
generates, stores, and returns a new id, which differs from the pre-reset
value whenever the freshly generated id does not collide with it. -/
theorem C5_reset_generates_fresh (st : SessionState) (now1 now2 : Nat)
    (d1 d2 : String) (hw : st.hasWindow = true)
    (hfresh : generateConversationId now2 d2 ≠ (getConversationId st now1 d1).1) :
    (getConversationId (resetConversation (getConversationId st now1 d1).2) now2 d2).1 =
      generateConversationId now2 d2 ∧
    (getConversationId (resetConversation (getConversationId st now1 d1).2) now2 d2).2.storage =
      some (generateConversationId now2 d2) ∧
    (getConversationId (resetConversation (getConversationId st now1 d1).2) now2 d2).1 ≠
      (getConversationId st now1 d1).1 := by
  have hw1 : (getConversationId st now1 d1).2.hasWindow = true := by
    rw [getConversationId_hasWindow]; exact hw
  have hreset : resetConversation (getConversationId st now1 d1).2 =
      (⟨true, none⟩ : SessionState) := by
    unfold resetConversation
    rw [hw1]
    simp
  rw [hreset]
  refine ⟨by simp [getConversationId], by simp [getConversationId], ?_⟩
  have h1 : (getConversationId (⟨true, none⟩ : SessionState) now2 d2).1 =
      generateConversationId now2 d2 := by simp [getConversationId]
  rw [h1]
  exact hfresh

theorem C5_reset_generates_fresh_witness :
    (⟨true, some "seed"⟩ : SessionState).hasWindow = true ∧
    generateConversationId 2 "bbbbb" ≠
      (getConversationId ⟨true, some "seed"⟩ 1 "aaaaa").1 ∧
    (getConversationId (resetConversation
        (getConversationId ⟨true, some "seed"⟩ 1 "aaaaa").2) 2 "bbbbb").1 =
      generateConversationId 2 "bbbbb" ∧
    (getConversationId (resetConversation
        (getConversationId ⟨true, some "seed"⟩ 1 "aaaaa").2) 2 "bbbbb").1 ≠
      (getConversationId ⟨true, some "seed"⟩ 1 "aaaaa").1 := by
  have h := C5_reset_generates_fresh ⟨true, some "seed"⟩ 1 2 "aaaaa" "bbbbb" rfl
    (by decide)
  exact ⟨rfl, by decide, h.1, h.2.2⟩

/-- C6 (counterexample): a request whose transport never responds is
aborted, but when the client is detected offline the call returns the
canned fallback with `success := true`, not a failure result. -/
theorem C6_counterexample :
    transportExceedsBound offlineHangEnv.transport = true ∧
    fetchWithTimeout offlineHangEnv.transport chatTimeoutMs = .aborted ∧
    (sendMessage "hello" none ⟨true, some "c1"⟩ offlineHangEnv).1.success = true :=
  ⟨rfl, rfl, rfl⟩

/-- C6 (amended): a chat request whose transport produces no event before
the 30-second bound observes the abort of the in-flight request, and the
call returns a result rather than remaining pending: the generic
`success := false` failure result when the client is online, and the
deterministic offline fallback when the client is detected offline. -/
theorem C6_amended_timeout (message : String) (cid : Option String)
    (st : SessionState) (env : ChatEnv)
    (h : transportExceedsBound env.transport = true) :
    fetchWithTimeout env.transport chatTimeoutMs = .aborted ∧
    (env.navigatorOnLine = true →
      (sendMessage message cid st env).1 =
        { success := false, message := retryPromptText,
          error := some env.abortMsg }) ∧
    (env.navigatorOnLine = false →
      (sendMessage message cid st env).1 = getDemoResponse message) := by
  have habort : fetchWithTimeout env.transport chatTimeoutMs = .aborted := by
    cases ht : env.transport with
    | hang => rfl
    | respond d status body =>
        rw [ht] at h
        unfold transportExceedsBound at h
        unfold fetchWithTimeout
        simp only [if_pos (of_decide_eq_true h)]
    | netFail d m =>
        rw [ht] at h
        unfold transportExceedsBound at h
        unfold fetchWithTimeout
        simp only [if_pos (of_decide_eq_true h)]
  have hatt : chatAttempt env = .error env.abortMsg := by
    unfold chatAttempt
    rw [habort]
  refine ⟨habort, ?_, ?_⟩
  · intro hon
    unfold sendMessage
    simp [hatt, hon]
  · intro hoff
    unfold sendMessage
    simp [hatt, hoff]

theorem C6_amended_timeout_witness :
    transportExceedsBound onlineHangEnv.transport = true ∧
    fetchWithTimeout onlineHangEnv.transport chatTimeoutMs = .aborted ∧
    (sendMessage "hello" none ⟨true, some "c1"⟩ onlineHangEnv).1 =
      { success := false, message := retryPromptText,
        error := some abortErrorText } :=
  ⟨rfl, (C6_amended_timeout "hello" none ⟨true, some "c1"⟩ onlineHangEnv rfl).1,
    (C6_amended_timeout "hello" none ⟨true, some "c1"⟩ onlineHangEnv rfl).2.1 rfl⟩

theorem actionFromOutcome_fails (out : PlainFetchOutcome ActionResponse)
    (failText : String) (h : plainFetchFails out = true) :
    actionFromOutcome out failText = { success := false, message := failText } := by
  cases out with
  | netErr m => rfl
  | delivered status body =>
      by_cases hok : responseOk status = true
      · cases body with
        | ok data =>
            exfalso
            simp [plainFetchFails, hok] at h
        | error m => simp [actionFromOutcome, hok]
      · simp [actionFromOutcome, hok]

/-- C7: for each action kind, any dispatch failure yields
`success := false` with the fixed generic text naming that action; the
fallback path is not used (the result is this fixed record), the outcome of one action
call is independent of the transport outcome of another, and the
chat session state is untouched. -/
theorem C7_action_failure_isolation (k k2 : ActionKind) (p p2 : String)
    (o o2 o2x : PlainFetchOutcome ActionResponse) (st : SessionState)
    (h : plainFetchFails o = true) :
    (dispatchAction k p o st).1 =
      { success := false, message := actionFailText k } ∧
    strContains (actionFailText k) (actionKindName k) = true ∧
    (runTwoActions k p o k2 p2 o2 st).1.1 =
      (runTwoActions k p o k2 p2 o2x st).1.1 ∧
    (dispatchAction k p o st).2 = st := by
  refine ⟨?_, ?_, rfl, ?_⟩
  · cases k <;>
      simp [dispatchAction, favoriteProperty, scheduleTour, setupOutreach,
        actionFromOutcome_fails _ _ h, actionFailText]
  · cases k <;> decide
  · cases k <;> rfl

theorem C7_action_failure_isolation_witness :
    plainFetchFails (PlainFetchOutcome.netErr "Failed to fetch" :
        PlainFetchOutcome ActionResponse) = true ∧
    (dispatchAction .favorite "p1" (.netErr "Failed to fetch") ⟨true, none⟩).1 =
      { success := false, message := actionFailText .favorite } ∧
    strContains (actionFailText .favorite) (actionKindName .favorite) = true ∧
    (runTwoActions .favorite "p1" (.netErr "Failed to fetch") .tour "p2"
        (.netErr "x") ⟨true, none⟩).1.1 =
      (runTwoActions .favorite "p1" (.netErr "Failed to fetch") .tour "p2"
        (.delivered 500 (.error "y")) ⟨true, none⟩).1.1 := by
  have h := C7_action_failure_isolation .favorite .tour "p1" "p2"
    (.netErr "Failed to fetch") (.netErr "x") (.delivered 500 (.error "y"))
    ⟨true, none⟩ rfl
  exact ⟨rfl, h.1, h.2.1, h.2.2.1⟩

/-- C8 (counterexample): the expansion `"i"` (the value one half, a
possible `Math.random()` output) yields the id `conv_7_i`, whose random
suffix has fewer than five characters. -/
theorem C8_counterexample :
    validRandDigits "i" = true ∧
    generateConversationId 7 "i" = "conv_" ++ toString 7 ++ "_" ++ "i" ∧
    ¬ 5 ≤ ("i" : String).length :=
  ⟨by decide, by decide, by decide⟩

/-- C8 (amended): for every possible `Math.random()` expansion, the
generated id has the form `conv_<timestamp>_<random>` where the random
suffix is the first at most nine base-36 characters of the expansion;
its length is bounded by nine but can be fewer than five. -/
theorem C8_amended_id_shape (now : Nat) (digits : String)
    (h : validRandDigits digits = true) :
    generateConversationId now digits =
      "conv_" ++ toString now ++ "_" ++ String.mk (digits.toList.take 9) ∧
    (digits.toList.take 9).all isBase36Digit = true ∧
    (digits.toList.take 9).length ≤ 9 := by
  obtain ⟨l⟩ := digits
  have hall : l.all isBase36Digit = true := by
    unfold validRandDigits at h
    exact ((Bool.and_eq_true _ _).mp ((Bool.and_eq_true _ _).mp h).1).1
  refine ⟨?_, ?_, ?_⟩
  · cases l with
    | nil => rfl
    | cons c cs => rfl
  · exact List.all_eq_true.mpr fun x hx =>
      List.all_eq_true.mp hall x (List.mem_of_mem_take hx)
  · rw [List.length_take]
    exact min_le_left _ _

theorem C8_amended_id_shape_witness :
    validRandDigits "9" = true ∧
    generateConversationId 3 "9" =
      "conv_" ++ toString 3 ++ "_" ++ String.mk ("9".toList.take 9) ∧
    ("9".toList.take 9).all isBase36Digit = true ∧
    ("9".toList.take 9).length ≤ 9 :=
  ⟨by decide, (C8_amended_id_shape 3 "9" (by decide)).1,
    (C8_amended_id_shape 3 "9" (by decide)).2.1,
    (C8_amended_id_shape 3 "9" (by decide)).2.2⟩

/-- C9: a `sendMessage` call with an explicitly supplied (truthy)
conversation id whose service call succeeds writes that id to session
storage, replacing whatever was stored before. -/
theorem C9_explicit_id_persisted (message c : String) (st : SessionState)
    (env : ChatEnv) (data : MCPResponse)
    (hc : ¬ c.data = []) (hok : chatAttempt env = .ok data)
    (hw : st.hasWindow = true) :
    (sendMessage message (some c) st env).2.storage = some c := by
  unfold sendMessage
  simp [hok, resolveConversationId, String.toList, hc, hw]

theorem C9_explicit_id_persisted_witness :
    ¬ ("custom_id" : String).data = [] ∧
    chatAttempt okChatEnv = .ok { success := true, message := "ok" } ∧
    (⟨true, some "previous"⟩ : SessionState).storage = some "previous" ∧
    (sendMessage "hi" (some "custom_id") ⟨true, some "previous"⟩
        okChatEnv).2.storage = some "custom_id" :=
  ⟨by decide, rfl, rfl,
    C9_explicit_id_persisted "hi" "custom_id" ⟨true, some "previous"⟩ okChatEnv
      { success := true, message := "ok" } (by decide) rfl rfl⟩

/-- C10: a `getConversationHistory()` call with no argument while no id is
stored generates a fresh conversation id and persists it to session
storage, whatever the transport outcome. -/
theorem C10_history_persists_id {τ : Type} (st : SessionState) (now : Nat)
    (digits : String) (out : PlainFetchOutcome (List τ))
    (hw : st.hasWindow = true) (hs : st.storage = none) :
    (getConversationHistory none st now digits out).2.storage =
      some (generateConversationId now digits) := by
  have hres : (resolveConversationId none st now digits).2.storage =
      some (generateConversationId now digits) := by
    simp [resolveConversationId, getConversationId, hw, hs]
  unfold getConversationHistory
  cases out with
  | netErr m => exact hres
  | delivered status body =>
      by_cases hok : responseOk status = true
      · cases body with
        | ok turns => simp [hok]; exact hres
        | error m => simp [hok]; exact hres
      · simp [hok]; exact hres

theorem C10_history_persists_id_witness :
    (⟨true, none⟩ : SessionState).hasWindow = true ∧
    (⟨true, none⟩ : SessionState).storage = none ∧
    (getConversationHistory none ⟨true, none⟩ 11 "m4n5b"
        (PlainFetchOutcome.netErr "Failed to fetch" :
          PlainFetchOutcome (List String))).2.storage =
      some (generateConversationId 11 "m4n5b") ∧
    generateConversationId 11 "m4n5b" = "conv_11_m4n5b" :=
  ⟨rfl, rfl,
    C10_history_persists_id ⟨true, none⟩ 11 "m4n5b"
      (PlainFetchOutcome.netErr "Failed to fetch") rfl rfl,
    by decide⟩
